import Mathlib

/-!
Shallow embedding of the Report & Document Generation Engine of the UrawaCup
repository (`src/backend/routes/reports.py`).

The persistence layer is modelled as an in-memory database snapshot (`DB`):
each SQLAlchemy query becomes a filter / sort over the corresponding list.
`order_by` and Python `sorted` are modelled with the stable insertion sort
`sortList` over the boolean comparison on the ordering key (all stable sorts
of a total preorder agree).  Dates are abstract `Nat` codes (`date.isoformat()` becomes
`toString`); the kickoff time is carried as its already-formatted `"%H:%M"`
string.  The wall-clock field `generated_at = datetime.now()` of the
`/reports/data` response is outside the model and omitted from `ReportData`.
HTTP error responses are modelled with `Except Nat`, the `Nat` being the
status code.

ReportLab coordinates in `export_group_standings_pdf` are all integer
multiples of the unit `mm` (A4 = 210mm x 297mm in reportlab), so the canvas is
modelled with `Int` coordinates measured in millimetres; font-selection calls
(`setFont`, and the font-registration fallback chain) carry no information
relevant to the layout and are not recorded as operations.
-/

namespace UrawaCup

/-- The MatchStage enum of `models.match`. -/
inductive MatchStage where
  | qualifying
  | semifinal
  | third_place
  | final
  | training
deriving DecidableEq, Repr

/-- The MatchStatus enum of `models.match`. -/
inductive MatchStatus where
  | scheduled
  | completed
deriving DecidableEq, Repr

/-- Model of `models.team.Team` (the attributes the reports router reads). -/
structure Team where
  id : Nat
  name : String
  short_name : Option String
deriving DecidableEq, Repr

/-- Model of `models.goal.Goal`; `team_name` embeds the joined `goal.team.name`. -/
structure Goal where
  match_id : Nat
  team_id : Nat
  team_name : String
  half : Nat
  minute : Nat
  player_name : String
  is_own_goal : Bool
  is_penalty : Bool
deriving DecidableEq, Repr

/-- Model of `models.match.Match` with its joined-loaded relations inlined. -/
structure MatchRow where
  id : Nat
  tournament_id : Nat
  venue_id : Nat
  match_date : Nat
  match_time : String
  match_order : Nat
  stage : MatchStage
  status : MatchStatus
  home_score_half1 : Option Nat
  home_score_half2 : Option Nat
  away_score_half1 : Option Nat
  away_score_half2 : Option Nat
  has_penalty_shootout : Bool
  home_pk : Option Nat
  away_pk : Option Nat
  home_team : Team
  away_team : Team
  goals : List Goal
deriving DecidableEq, Repr

/-- Model of `models.tournament.Tournament` (attributes the reports router reads). -/
structure Tournament where
  id : Nat
  name : String
  sender_organization : Option String
  sender_name : Option String
  sender_contact : Option String
deriving DecidableEq, Repr

/-- Model of `models.venue.Venue` (attributes the reports router reads). -/
structure Venue where
  id : Nat
  tournament_id : Nat
  name : String
deriving DecidableEq, Repr

/-- Model of `models.report_recipient.ReportRecipient`; the DB-assigned autoincrement
`id` plays no role in the embedded endpoints and is omitted. -/
structure Recipient where
  tournament_id : Nat
  name : String
  notes : String
deriving DecidableEq, Repr

/-- Model of `models.standing.Standing` (attributes the reports router reads). -/
structure Standing where
  tournament_id : Nat
  group_id : String
  team_id : Nat
  rank : Nat
  played : Nat
  won : Nat
  drawn : Nat
  lost : Nat
  goals_for : Nat
  goals_against : Nat
  goal_difference : Int
deriving DecidableEq, Repr

/-- Model of `models.group.Group`. -/
structure Group where
  id : String
  name : String
deriving DecidableEq, Repr

/-- The database snapshot a report request reads. -/
structure DB where
  tournaments : List Tournament
  venues : List Venue
  teams : List Team
  matchRows : List MatchRow
  recipients : List Recipient
  standings : List Standing
  groups : List Group
deriving DecidableEq, Repr

/-- Python truthiness of an `Optional[int]` (`if venue_id:`):
`None` and `0` are falsy. -/
def pyTruthyNat : Option Nat → Bool
  | none => false
  | some n => n != 0

/-- Python truthiness of an `Optional[str]` (`if group_id:`):
`None` and `""` are falsy. -/
def pyTruthyStr : Option String → Bool
  | none => false
  | some s => s != ""

/-- Python `x or d` on an optional integer (used as `match.home_score_half1 or 0`):
`None` and `0` are falsy and yield the default. -/
def pyOrNat (x : Option Nat) (d : Nat) : Nat :=
  match x with
  | none => d
  | some v => if v == 0 then d else v

/-- Python `s or d` on an optional string (used as `team.short_name or team.name`):
`None` and `""` are falsy and yield the default. -/
def pyOrStr (x : Option String) (d : String) : String :=
  match x with
  | none => d
  | some s => if s == "" then d else s

/-- Python `f"{x}"` on an optional integer: `None` prints as `"None"`. -/
def pyStrOptNat (x : Option Nat) : String :=
  match x with
  | none => "None"
  | some n => toString n

/-- Stable insertion into a sorted list: `a` is placed before the first
element `x` with `le a x`.  Used to model the stable sorts of the source
(Python `sorted` and SQL `ORDER BY` over a total preorder key). -/
def insertLE (le : α → α → Bool) (a : α) : List α → List α
  | [] => [a]
  | x :: xs => if le a x then a :: x :: xs else x :: insertLE le a xs

/-- Stable insertion sort; agrees with any stable sort (such as Python
`sorted`) for a total preorder comparison. -/
def sortList (le : α → α → Bool) : List α → List α
  | [] => []
  | x :: xs => insertLE le x (sortList le xs)

/-- The `order_by(Match.venue_id, Match.match_order)` comparison. -/
def matchLE (a b : MatchRow) : Bool :=
  a.venue_id < b.venue_id || (a.venue_id == b.venue_id && a.match_order ≤ b.match_order)

/-- The clause `if venue_id: query = query.filter(Match.venue_id == venue_id)`. -/
def applyVenueFilter (venue_id : Option Nat) (ms : List MatchRow) : List MatchRow :=
  if pyTruthyNat venue_id then ms.filter (fun m => m.venue_id == venue_id.getD 0) else ms

/-- The match query of `get_report_data`: tournament + date + stage != TRAINING,
optional venue filter, ordered by (venue_id, match_order). -/
def reportScopeMatches (db : DB) (tournament_id target_date : Nat)
    (venue_id : Option Nat) : List MatchRow :=
  let ms := db.matchRows.filter (fun m =>
    m.tournament_id == tournament_id && m.match_date == target_date &&
      m.stage != MatchStage.training)
  sortList matchLE (applyVenueFilter venue_id ms)

/-- The match query of `get_match_reports`: additionally requires
status == COMPLETED. -/
def matchReportMatches (db : DB) (tournament_id target_date : Nat)
    (venue_id : Option Nat) : List MatchRow :=
  let ms := db.matchRows.filter (fun m =>
    m.tournament_id == tournament_id && m.match_date == target_date &&
      m.status == MatchStatus.completed && m.stage != MatchStage.training)
  sortList matchLE (applyVenueFilter venue_id ms)

/-- Model of `schemas.report.ReportData` (without the wall-clock `generated_at`). -/
structure ReportData where
  tournament : Tournament
  date : Nat
  venue : Option Venue
  matchRows : List MatchRow
  recipients : List Recipient
  generated_by : String
deriving DecidableEq, Repr

/-- Endpoint `GET /reports/data` (`get_report_data`). -/
def get_report_data (db : DB) (tournament_id target_date : Nat)
    (venue_id : Option Nat) : Except Nat ReportData :=
  match db.tournaments.find? (fun t => t.id == tournament_id) with
  | none => .error 404
  | some tournament =>
    let ms := reportScopeMatches db tournament_id target_date venue_id
    let venue := if pyTruthyNat venue_id then
        db.venues.find? (fun v => v.id == venue_id.getD 0)
      else none
    let recipients := db.recipients.filter (fun r => r.tournament_id == tournament_id)
    .ok { tournament := tournament
          date := target_date
          venue := venue
          matchRows := ms
          recipients := recipients
          generated_by := "浦和カップ運営事務局" }

/-- Model of `schemas.report.GoalReport`. -/
structure GoalReport where
  minute : Nat
  half : Nat
  team_name : String
  player_name : String
  display_text : String
deriving DecidableEq, Repr

/-- Model of `schemas.report.MatchReport`. -/
structure MatchReport where
  match_number : Nat
  kickoff_time : String
  home_team_name : String
  away_team_name : String
  score_half1 : String
  score_half2 : String
  score_total : String
  score_pk : Option String
  goals : List GoalReport
deriving DecidableEq, Repr

/-- The expression `"前半" if goal.half == 1 else "後半"`. -/
def halfText (half : Nat) : String :=
  if half == 1 then "前半" else "後半"

/-- One iteration of the goal-formatting loop of `get_match_reports`. -/
def formatGoal (g : Goal) : GoalReport :=
  let display := halfText g.half ++ toString g.minute ++ "分 " ++ g.team_name ++ " " ++ g.player_name
  let display := if g.is_own_goal then display ++ "(OG)" else display
  let display := if g.is_penalty then display ++ "(PK)" else display
  { minute := g.minute
    half := g.half
    team_name := g.team_name
    player_name := g.player_name
    display_text := display }

/-- The `sorted(match.goals, key=lambda g: (g.half, g.minute))` comparison. -/
def goalLE (a b : Goal) : Bool :=
  a.half < b.half || (a.half == b.half && a.minute ≤ b.minute)

/-- The body of the per-match loop of `get_match_reports`: one
`MatchReport` from one `Match` row. -/
def formatMatch (m : MatchRow) : MatchReport :=
  let goals := (sortList goalLE m.goals).map formatGoal
  let h1 := pyOrNat m.home_score_half1 0
  let h2 := pyOrNat m.home_score_half2 0
  let a1 := pyOrNat m.away_score_half1 0
  let a2 := pyOrNat m.away_score_half2 0
  let score_pk := if m.has_penalty_shootout then
      some (pyStrOptNat m.home_pk ++ "-" ++ pyStrOptNat m.away_pk)
    else none
  { match_number := m.match_order
    kickoff_time := m.match_time
    home_team_name := pyOrStr m.home_team.short_name m.home_team.name
    away_team_name := pyOrStr m.away_team.short_name m.away_team.name
    score_half1 := toString h1 ++ "-" ++ toString a1
    score_half2 := toString h2 ++ "-" ++ toString a2
    score_total := toString (h1 + h2) ++ "-" ++ toString (a1 + a2)
    score_pk := score_pk
    goals := goals }

/-- Endpoint `GET /reports/match-reports` (`get_match_reports`).  Note the endpoint
performs no tournament-existence check; its only outcome is `.ok`. -/
def get_match_reports (db : DB) (tournament_id target_date : Nat)
    (venue_id : Option Nat) : Except Nat (List MatchReport) :=
  .ok ((matchReportMatches db tournament_id target_date venue_id).map formatMatch)

/-- Model of `schemas.report.SenderSettingsUpdate`: a PATCH body.  The outer `Option`
is pydantic's supplied/unset distinction (`model_dump(exclude_unset=True)`
drops unset fields); the inner `Option String` is the supplied value, which
may itself be null. -/
structure SenderSettingsUpdate where
  sender_organization : Option (Option String)
  sender_name : Option (Option String)
  sender_contact : Option (Option String)
deriving DecidableEq, Repr

/-- Model of `schemas.report.SenderSettingsResponse`. -/
structure SenderSettingsResponse where
  sender_organization : Option String
  sender_name : Option String
  sender_contact : Option String
deriving DecidableEq, Repr

/-- The loop `for field, value in update_data.items(): setattr(tournament, field, value)`:
loop: each field present in the (exclude_unset) dump is written onto the
tournament object; unset fields are untouched.  (`hasattr` is true for all
three fields of `SenderSettingsUpdate`.) -/
def applySenderUpdate (u : SenderSettingsUpdate) (t : Tournament) : Tournament :=
  let t := match u.sender_organization with
    | none => t
    | some v => { t with sender_organization := v }
  let t := match u.sender_name with
    | none => t
    | some v => { t with sender_name := v }
  match u.sender_contact with
  | none => t
  | some v => { t with sender_contact := v }

/-- In-place mutation of the first list element satisfying `p` (the object
returned by `.first()` is mutated and committed; other rows are untouched). -/
def updateFirst (p : α → Bool) (f : α → α) : List α → List α
  | [] => []
  | x :: xs => if p x then f x :: xs else x :: updateFirst p f xs

/-- Endpoint PATCH sender-settings by tournament id (`update_sender_settings`):
404 when the tournament is missing, otherwise apply the field-wise update and
return the updated sender block together with the new database state. -/
def update_sender_settings (db : DB) (tournament_id : Nat)
    (settings : SenderSettingsUpdate) : Except Nat (DB × SenderSettingsResponse) :=
  match db.tournaments.find? (fun t => t.id == tournament_id) with
  | none => .error 404
  | some t =>
    let t' := applySenderUpdate settings t
    let db' := { db with
      tournaments := updateFirst (fun x => x.id == tournament_id) (applySenderUpdate settings) db.tournaments }
    .ok (db', { sender_organization := t'.sender_organization
                sender_name := t'.sender_name
                sender_contact := t'.sender_contact })

/-- The fixed default recipient rows inserted by `setup_default_recipients`. -/
def defaultRecipients (tournament_id : Nat) : List Recipient :=
  [ { tournament_id := tournament_id, name := "埼玉新聞", notes := "スポーツ部" },
    { tournament_id := tournament_id, name := "テレビ埼玉", notes := "報道部" },
    { tournament_id := tournament_id, name := "イシクラ", notes := "" },
    { tournament_id := tournament_id, name := "埼玉県サッカー協会", notes := "" } ]

/-- Endpoint POST setup-default recipients by tournament id
(`setup_default_recipients`): 404 when the tournament is missing, otherwise
unconditionally insert the four default rows and return them with the new
database state. -/
def setup_default_recipients (db : DB) (tournament_id : Nat) :
    Except Nat (DB × List Recipient) :=
  match db.tournaments.find? (fun t => t.id == tournament_id) with
  | none => .error 404
  | some _ =>
    let created := defaultRecipients tournament_id
    .ok ({ db with recipients := db.recipients ++ created }, created)

/-- The filename of `GET /reports/export/pdf` (`export_report_pdf`):
`report_{date}[_venue{id}].pdf`, the venue suffix gated on truthiness. -/
def export_pdf_filename (target_date : Nat) (venue_id : Option Nat) : String :=
  let f := "report_" ++ toString target_date
  let f := if pyTruthyNat venue_id then f ++ "_venue" ++ toString (venue_id.getD 0) else f
  f ++ ".pdf"

/-- The filename of `GET /reports/export/excel` (`export_report_excel`). -/
def export_excel_filename (target_date : Nat) (venue_id : Option Nat) : String :=
  let f := "report_" ++ toString target_date
  let f := if pyTruthyNat venue_id then f ++ "_venue" ++ toString (venue_id.getD 0) else f
  f ++ ".xlsx"

/-! ### The ReportLab canvas model for `export_group_standings_pdf`

Coordinates are integers in millimetres (every coordinate in the source is an
integer multiple of `mm`; reportlab's A4 is exactly 210mm x 297mm). -/

/-- A drawing operation recorded on a page. -/
inductive PdfOp where
  | text (x y : Int) (s : String)
  | line (x1 y1 x2 y2 : Int)
deriving DecidableEq, Repr

/-- Model of `reportlab.pdfgen.canvas.Canvas`: the pages already closed by
`showPage()` plus the page currently being drawn. -/
structure Canvas where
  pages : List (List PdfOp)
  current : List PdfOp
deriving DecidableEq, Repr

/-- Operation `c.drawString(x, y, s)`. -/
def Canvas.drawString (c : Canvas) (x y : Int) (s : String) : Canvas :=
  { c with current := c.current ++ [PdfOp.text x y s] }

/-- Operation `c.line(x1, y1, x2, y2)`. -/
def Canvas.drawLine (c : Canvas) (x1 y1 x2 y2 : Int) : Canvas :=
  { c with current := c.current ++ [PdfOp.line x1 y1 x2 y2] }

/-- Operation `c.showPage()`: close the current page and start a fresh one. -/
def Canvas.showPage (c : Canvas) : Canvas :=
  { pages := c.pages ++ [c.current], current := [] }

/-- Operation `c.save()`: the finalized document; reportlab emits the in-progress page
as the document's last page. -/
def Canvas.save (c : Canvas) : List (List PdfOp) :=
  c.pages ++ [c.current]

/-- A4 page height in millimetres. -/
def pageHeight : Int := 297

/-- Lexicographic (codepoint) order on char lists: the order SQL `ORDER BY`
and Python use on the string `group_id` column.  (The library order
`String.lt` is semantically identical but its decision procedure does not
reduce in the kernel, so the comparison is spelled out on `String.data`.) -/
def charListLT : List Char → List Char → Bool
  | [], [] => false
  | [], _ :: _ => true
  | _ :: _, [] => false
  | a :: as, b :: bs =>
    if a.toNat < b.toNat then true
    else if b.toNat < a.toNat then false
    else charListLT as bs

/-- Lexicographic codepoint order on strings. -/
def strLT (a b : String) : Bool := charListLT a.data b.data

/-- The standings query of `export_group_standings_pdf`: tournament filter,
optional group filter (gated on Python truthiness), ordered by
(group_id, rank). -/
def standingLE (a b : Standing) : Bool :=
  strLT a.group_id b.group_id || (a.group_id == b.group_id && a.rank ≤ b.rank)

def standingsQuery (db : DB) (tournament_id : Nat) (group_id : Option String) :
    List Standing :=
  let s := db.standings.filter (fun st => st.tournament_id == tournament_id)
  let s := if pyTruthyStr group_id then
      s.filter (fun st => st.group_id == group_id.getD "")
    else s
  sortList standingLE s

/-- The mutable loop state of the standings-rendering loop: the canvas, the
vertical cursor `y`, and `current_group`. -/
structure LayoutState where
  c : Canvas
  y : Int
  current_group : Option String
deriving Repr

/-- The group-boundary block of the loop body: on a group change, insert the
inter-group gap (only after a previous group), evaluate the page break
(`if y < 80*mm`), then draw the group title, the column-header row and the
separator line. -/
def groupHeaderStep (db : DB) (s : LayoutState) (st : Standing) : LayoutState :=
  if s.current_group != some st.group_id then
    let y := if s.current_group != none then s.y - 10 else s.y
    let cy : Canvas × Int :=
      if y < 80 then (s.c.showPage, pageHeight - 20) else (s.c, y)
    let c := cy.1
    let y := cy.2
    let group_name := match db.groups.find? (fun g => g.id == st.group_id) with
      | some g => g.name
      | none => st.group_id
    let c := c.drawString 30 y ("【" ++ group_name ++ "】")
    let y := y - 8
    let c := c.drawString 30 y "順位"
    let c := c.drawString 45 y "チーム名"
    let c := c.drawString 100 y "試合"
    let c := c.drawString 115 y "勝"
    let c := c.drawString 125 y "分"
    let c := c.drawString 135 y "負"
    let c := c.drawString 145 y "得点"
    let c := c.drawString 160 y "失点"
    let c := c.drawString 175 y "得失点差"
    let y := y - 5
    let c := c.drawLine 30 (y + 2) 190 (y + 2)
    { c := c, y := y, current_group := some st.group_id }
  else s

/-- The data-row block of the loop body: team lookup, display-name fallback,
15-character truncation, nine cell draws, then `y -= 5*mm`. -/
def standingStep (db : DB) (s : LayoutState) (st : Standing) : LayoutState :=
  let s := groupHeaderStep db s st
  let team_name := match db.teams.find? (fun t => t.id == st.team_id) with
    | some t => pyOrStr t.short_name t.name
    | none => "Unknown"
  let c := s.c.drawString 32 s.y (toString st.rank)
  let c := c.drawString 45 s.y (team_name.take 15)
  let c := c.drawString 102 s.y (toString st.played)
  let c := c.drawString 117 s.y (toString st.won)
  let c := c.drawString 127 s.y (toString st.drawn)
  let c := c.drawString 137 s.y (toString st.lost)
  let c := c.drawString 147 s.y (toString st.goals_for)
  let c := c.drawString 162 s.y (toString st.goals_against)
  let c := c.drawString 177 s.y (toString st.goal_difference)
  { c := c, y := s.y - 5, current_group := s.current_group }

/-- The footer operation stamped after the loop:
`c.drawString(30*mm, 15*mm, "浦和カップ運営事務局")`. -/
def footerOp : PdfOp := PdfOp.text 30 15 "浦和カップ運営事務局"

/-- Endpoint `GET /reports/export/group-standings` (`export_group_standings_pdf`):
404 when the tournament is missing or the standings scope is empty; otherwise
the finalized page list and the download filename. -/
def export_group_standings_pdf (db : DB) (tournament_id : Nat)
    (group_id : Option String) : Except Nat (List (List PdfOp) × String) :=
  match db.tournaments.find? (fun t => t.id == tournament_id) with
  | none => .error 404
  | some tournament =>
    let standings := standingsQuery db tournament_id group_id
    if standings.isEmpty then .error 404
    else
      let c : Canvas := { pages := [], current := [] }
      let y : Int := pageHeight - 20
      let c := c.drawString 30 y (tournament.name ++ " グループ順位表")
      let y := y - 15
      let s := standings.foldl (standingStep db)
        { c := c, y := y, current_group := none }
      let c := s.c.drawString 30 15 "浦和カップ運営事務局"
      let filename := "group_standings_tournament_" ++ toString tournament_id
      let filename := if pyTruthyStr group_id then
          filename ++ "_group_" ++ group_id.getD ""
        else filename
      .ok (c.save, filename ++ ".pdf")

/-- The pages of an export result (`[]` on error). -/
def pagesOf (r : Except Nat (List (List PdfOp) × String)) : List (List PdfOp) :=
  match r with
  | .ok (p, _) => p
  | .error _ => []

/-! ### Helper lemmas -/

theorem pyOrNat_zero (x : Option Nat) : pyOrNat x 0 = x.getD 0 := by
  cases x with
  | none => rfl
  | some v =>
    simp only [pyOrNat, Option.getD_some]
    split <;> simp_all

theorem mem_insertLE {le : α → α → Bool} {a b : α} {l : List α} :
    b ∈ insertLE le a l ↔ b = a ∨ b ∈ l := by
  induction l with
  | nil => simp [insertLE]
  | cons x xs ih =>
    unfold insertLE
    split
    · simp [List.mem_cons]
    · simp [List.mem_cons, ih]
      tauto

theorem mem_sortList {le : α → α → Bool} {b : α} {l : List α} :
    b ∈ sortList le l ↔ b ∈ l := by
  induction l with
  | nil => simp [sortList]
  | cons x xs ih =>
    unfold sortList
    rw [mem_insertLE, ih, List.mem_cons]

theorem length_insertLE {le : α → α → Bool} {a : α} {l : List α} :
    (insertLE le a l).length = l.length + 1 := by
  induction l with
  | nil => rfl
  | cons x xs ih =>
    unfold insertLE
    split
    · simp
    · simp [ih]

theorem length_sortList {le : α → α → Bool} {l : List α} :
    (sortList le l).length = l.length := by
  induction l with
  | nil => rfl
  | cons x xs ih =>
    unfold sortList
    rw [length_insertLE, ih, List.length_cons]

theorem pairwise_insertLE {le : α → α → Bool}
    (htrans : ∀ a b c, le a b = true → le b c = true → le a c = true)
    (htotal : ∀ a b, (le a b || le b a) = true)
    {a : α} {l : List α} (hl : List.Pairwise (fun x y => le x y = true) l) :
    List.Pairwise (fun x y => le x y = true) (insertLE le a l) := by
  induction l with
  | nil => simp [insertLE]
  | cons x xs ih =>
    rw [List.pairwise_cons] at hl
    obtain ⟨hx, hxs⟩ := hl
    unfold insertLE
    split
    case isTrue hax =>
      rw [List.pairwise_cons]
      refine ⟨?_, List.pairwise_cons.mpr ⟨hx, hxs⟩⟩
      intro y hy
      rcases List.mem_cons.mp hy with hy | hy
      · exact hy ▸ hax
      · exact htrans a x y hax (hx y hy)
    case isFalse hax =>
      rw [List.pairwise_cons]
      refine ⟨?_, ih hxs⟩
      intro y hy
      rcases mem_insertLE.mp hy with hya | hy
      · rw [hya]
        have h2 := htotal a x
        rw [Bool.or_eq_true] at h2
        rcases h2 with h | h
        · exact absurd h hax
        · exact h
      · exact hx y hy

theorem pairwise_sortList {le : α → α → Bool}
    (htrans : ∀ a b c, le a b = true → le b c = true → le a c = true)
    (htotal : ∀ a b, (le a b || le b a) = true)
    (l : List α) :
    List.Pairwise (fun x y => le x y = true) (sortList le l) := by
  induction l with
  | nil => simp [sortList]
  | cons x xs ih => exact pairwise_insertLE htrans htotal ih

theorem mem_applyVenueFilter {venue_id : Option Nat} {ms : List MatchRow} {m : MatchRow}
    (h : m ∈ applyVenueFilter venue_id ms) : m ∈ ms := by
  unfold applyVenueFilter at h
  split at h
  · exact List.mem_of_mem_filter h
  · exact h

theorem mem_reportScopeMatches {db : DB} {tournament_id target_date : Nat}
    {venue_id : Option Nat} {m : MatchRow}
    (h : m ∈ reportScopeMatches db tournament_id target_date venue_id) :
    m ∈ db.matchRows ∧ m.tournament_id = tournament_id ∧
      m.match_date = target_date ∧ m.stage ≠ MatchStage.training := by
  unfold reportScopeMatches at h
  rw [mem_sortList] at h
  have hmem := mem_applyVenueFilter h
  rw [List.mem_filter] at hmem
  obtain ⟨hm, hp⟩ := hmem
  simp only [Bool.and_eq_true, beq_iff_eq, bne_iff_ne, ne_eq] at hp
  exact ⟨hm, hp.1.1, hp.1.2, hp.2⟩

theorem mem_matchReportMatches {db : DB} {tournament_id target_date : Nat}
    {venue_id : Option Nat} {m : MatchRow}
    (h : m ∈ matchReportMatches db tournament_id target_date venue_id) :
    m ∈ db.matchRows ∧ m.tournament_id = tournament_id ∧
      m.match_date = target_date ∧ m.status = MatchStatus.completed ∧
      m.stage ≠ MatchStage.training := by
  unfold matchReportMatches at h
  rw [mem_sortList] at h
  have hmem := mem_applyVenueFilter h
  rw [List.mem_filter] at hmem
  obtain ⟨hm, hp⟩ := hmem
  simp only [Bool.and_eq_true, beq_iff_eq, bne_iff_ne, ne_eq] at hp
  exact ⟨hm, hp.1.1.1, hp.1.1.2, hp.1.2, hp.2⟩

theorem get_report_data_ok {db : DB} {tournament_id target_date : Nat}
    {venue_id : Option Nat} {rd : ReportData}
    (h : get_report_data db tournament_id target_date venue_id = Except.ok rd) :
    rd.matchRows = reportScopeMatches db tournament_id target_date venue_id := by
  unfold get_report_data at h
  split at h
  · exact absurd h (by simp)
  · simp only [Except.ok.injEq] at h
    subst h
    rfl

theorem applyVenueFilter_eq_filter (venue_id : Option Nat) (ms : List MatchRow) :
    applyVenueFilter venue_id ms =
      ms.filter (fun m => !pyTruthyNat venue_id || m.venue_id == venue_id.getD 0) := by
  unfold applyVenueFilter
  by_cases h : pyTruthyNat venue_id = true
  · simp [h]
  · rw [Bool.not_eq_true] at h
    simp [h]

theorem goalLE_trans (a b c : Goal) (hab : goalLE a b = true) (hbc : goalLE b c = true) :
    goalLE a c = true := by
  simp only [goalLE, Bool.or_eq_true, Bool.and_eq_true, decide_eq_true_eq, beq_iff_eq] at *
  omega

theorem goalLE_total (a b : Goal) : (goalLE a b || goalLE b a) = true := by
  simp only [goalLE, Bool.or_eq_true, Bool.and_eq_true, decide_eq_true_eq, beq_iff_eq]
  omega

theorem formatGoal_display (g : Goal) :
    (formatGoal g).display_text =
      halfText g.half ++ (toString g.minute ++ "分 " ++ g.team_name ++ " " ++ g.player_name ++
        ((if g.is_own_goal then "(OG)" else "") ++ (if g.is_penalty then "(PK)" else ""))) := by
  cases hog : g.is_own_goal <;> cases hpk : g.is_penalty <;>
    simp [formatGoal, hog, hpk, String.append_assoc]

/-! ### Concrete witness data

A small database: one tournament, two teams, one venue, one completed
qualifying match with three goals, one training match and one scheduled
match, all on date `5`. -/

def wTeamA : Team := { id := 1, name := "浦和南ジュニア", short_name := some "浦和A" }

def wTeamB : Team := { id := 2, name := "大宮北", short_name := none }

def wGoal110 : Goal :=
  { match_id := 1, team_id := 1, team_name := "浦和南ジュニア", half := 1, minute := 10,
    player_name := "山田", is_own_goal := false, is_penalty := false }

def wGoal205 : Goal :=
  { match_id := 1, team_id := 2, team_name := "大宮北", half := 2, minute := 5,
    player_name := "佐藤", is_own_goal := true, is_penalty := true }

def wGoal140 : Goal :=
  { match_id := 1, team_id := 1, team_name := "浦和南ジュニア", half := 1, minute := 40,
    player_name := "鈴木", is_own_goal := false, is_penalty := false }

def wM1 : MatchRow :=
  { id := 1, tournament_id := 1, venue_id := 1, match_date := 5, match_time := "10:00",
    match_order := 1, stage := MatchStage.qualifying, status := MatchStatus.completed,
    home_score_half1 := some 2, home_score_half2 := some 1,
    away_score_half1 := some 0, away_score_half2 := some 1,
    has_penalty_shootout := false, home_pk := none, away_pk := none,
    home_team := wTeamA, away_team := wTeamB,
    goals := [wGoal110, wGoal205, wGoal140] }

def wM2 : MatchRow :=
  { wM1 with id := 2, match_order := 2, stage := MatchStage.training, goals := [] }

def wM3 : MatchRow :=
  { wM1 with id := 3, match_order := 3, status := MatchStatus.scheduled, goals := [] }

def wT : Tournament :=
  { id := 1, name := "浦和カップ", sender_organization := some "浦和カップ運営事務局",
    sender_name := none, sender_contact := none }

def wDB : DB :=
  { tournaments := [wT]
    venues := [{ id := 1, tournament_id := 1, name := "駒場" }]
    teams := [wTeamA, wTeamB]
    matchRows := [wM1, wM2, wM3]
    recipients := []
    standings := []
    groups := [] }

/-! ### The claims -/

/-- C1: every match whose stage is `training` is excluded both from the
matches of the `GET /reports/data` response and from the match set that
`GET /reports/match-reports` formats, for every date and venue filter. -/
theorem c1_training_excluded (db : DB) (tournament_id target_date : Nat)
    (venue_id : Option Nat) (rd : ReportData)
    (h : get_report_data db tournament_id target_date venue_id = Except.ok rd) :
    (∀ m ∈ rd.matchRows, m.stage ≠ MatchStage.training) ∧
    (∀ m ∈ matchReportMatches db tournament_id target_date venue_id,
      m.stage ≠ MatchStage.training) ∧
    get_match_reports db tournament_id target_date venue_id =
      Except.ok ((matchReportMatches db tournament_id target_date venue_id).map formatMatch) := by
  refine ⟨?_, ?_, rfl⟩
  · intro m hm
    rw [get_report_data_ok h] at hm
    exact (mem_reportScopeMatches hm).2.2.2
  · intro m hm
    exact (mem_matchReportMatches hm).2.2.2.2

def wRD : ReportData :=
  { tournament := wT, date := 5, venue := none, matchRows := [wM1, wM3],
    recipients := [], generated_by := "浦和カップ運営事務局" }

/-- Witness for C1 at the concrete database `wDB`. -/
theorem c1_training_excluded_witness :
    (∀ m ∈ wRD.matchRows, m.stage ≠ MatchStage.training) ∧
    (∀ m ∈ matchReportMatches wDB 1 5 none, m.stage ≠ MatchStage.training) ∧
    get_match_reports wDB 1 5 none =
      Except.ok ((matchReportMatches wDB 1 5 none).map formatMatch) :=
  c1_training_excluded wDB 1 5 none wRD rfl

/-- C2: the formatted score strings are the half scores joined by a hyphen,
with any absent half score replaced by `0` before formatting and before the
total sum; and the spec's round-trip example (2,1,0,1) yields
"2-0" / "1-1" / "3-1". -/
theorem c2_score_strings (m : MatchRow) :
    (formatMatch m).score_half1 =
      toString (m.home_score_half1.getD 0) ++ "-" ++ toString (m.away_score_half1.getD 0) ∧
    (formatMatch m).score_half2 =
      toString (m.home_score_half2.getD 0) ++ "-" ++ toString (m.away_score_half2.getD 0) ∧
    (formatMatch m).score_total =
      toString (m.home_score_half1.getD 0 + m.home_score_half2.getD 0) ++ "-" ++
        toString (m.away_score_half1.getD 0 + m.away_score_half2.getD 0) ∧
    (formatMatch wM1).score_half1 = "2-0" ∧
    (formatMatch wM1).score_half2 = "1-1" ∧
    (formatMatch wM1).score_total = "3-1" := by
  refine ⟨?_, ?_, ?_, by decide, by decide, by decide⟩ <;>
    simp [formatMatch, pyOrNat_zero]

/-- C3: the match-report list has exactly one row per in-scope completed,
non-training match, and every row is the formatted image of such a match. -/
theorem c3_completed_only (db : DB) (tournament_id target_date : Nat)
    (venue_id : Option Nat) (reports : List MatchReport)
    (h : get_match_reports db tournament_id target_date venue_id = Except.ok reports) :
    reports.length =
      ((db.matchRows.filter (fun m =>
          m.tournament_id == tournament_id && m.match_date == target_date &&
            m.status == MatchStatus.completed && m.stage != MatchStage.training)).filter
        (fun m => !pyTruthyNat venue_id || m.venue_id == venue_id.getD 0)).length ∧
    ∀ r ∈ reports, ∃ m ∈ db.matchRows,
      m.status = MatchStatus.completed ∧ m.stage ≠ MatchStage.training ∧
      m.tournament_id = tournament_id ∧ m.match_date = target_date ∧
      r = formatMatch m := by
  simp only [get_match_reports, Except.ok.injEq] at h
  subst h
  constructor
  · rw [List.length_map]
    unfold matchReportMatches
    rw [length_sortList, applyVenueFilter_eq_filter]
  · intro r hr
    rw [List.mem_map] at hr
    obtain ⟨m, hm, hr⟩ := hr
    obtain ⟨h1, h2, h3, h4, h5⟩ := mem_matchReportMatches hm
    exact ⟨m, h1, h4, h5, h2, h3, hr.symm⟩

/-- Witness for C3 at the concrete database `wDB`: the only report row is the
completed qualifying match `wM1`. -/
theorem c3_completed_only_witness :
    ((matchReportMatches wDB 1 5 none).map formatMatch).length =
      ((wDB.matchRows.filter (fun m =>
          m.tournament_id == 1 && m.match_date == 5 &&
            m.status == MatchStatus.completed && m.stage != MatchStage.training)).filter
        (fun m => !pyTruthyNat none || m.venue_id == (none : Option Nat).getD 0)).length ∧
    ∀ r ∈ (matchReportMatches wDB 1 5 none).map formatMatch, ∃ m ∈ wDB.matchRows,
      m.status = MatchStatus.completed ∧ m.stage ≠ MatchStage.training ∧
      m.tournament_id = 1 ∧ m.match_date = 5 ∧
      r = formatMatch m :=
  c3_completed_only wDB 1 5 none ((matchReportMatches wDB 1 5 none).map formatMatch) rfl

/-- C4: in every formatted match report the goal lines are sorted ascending
by (half, minute); a first-half goal line starts with the first-half label
and any other goal line with the distinct second-half label; and the
own-goal and penalty markers are appended independently, so a goal with both
flags carries both suffixes. -/
theorem c4_goal_lines (m : MatchRow) (g : Goal) :
    List.Pairwise (fun x y : GoalReport =>
      x.half < y.half ∨ (x.half = y.half ∧ x.minute ≤ y.minute)) (formatMatch m).goals ∧
    (∀ gr ∈ (formatMatch m).goals,
      (gr.half = 1 → ∃ rest, gr.display_text = "前半" ++ rest) ∧
      (gr.half ≠ 1 → ∃ rest, gr.display_text = "後半" ++ rest)) ∧
    ("前半" : String) ≠ "後半" ∧
    (formatGoal g).display_text =
      (formatGoal { g with is_own_goal := false, is_penalty := false }).display_text ++
        ((if g.is_own_goal = true then "(OG)" else "") ++
          (if g.is_penalty = true then "(PK)" else "")) := by
  refine ⟨?_, ?_, by decide, ?_⟩
  · have hs := pairwise_sortList goalLE_trans goalLE_total m.goals
    show List.Pairwise _ ((sortList goalLE m.goals).map formatGoal)
    refine List.Pairwise.map formatGoal ?_ hs
    intro a b hab
    simp only [goalLE, Bool.or_eq_true, Bool.and_eq_true, decide_eq_true_eq, beq_iff_eq] at hab
    show a.half < b.half ∨ (a.half = b.half ∧ a.minute ≤ b.minute)
    omega
  · intro gr hgr
    have hgr' : gr ∈ (sortList goalLE m.goals).map formatGoal := hgr
    rw [List.mem_map] at hgr'
    obtain ⟨g0, _, rfl⟩ := hgr'
    constructor
    · intro h1
      have hh : g0.half = 1 := h1
      refine ⟨toString g0.minute ++ "分 " ++ g0.team_name ++ " " ++ g0.player_name ++
        ((if g0.is_own_goal = true then "(OG)" else "") ++
          (if g0.is_penalty = true then "(PK)" else "")), ?_⟩
      rw [formatGoal_display, halfText, hh]
      simp
    · intro h1
      have hh : ¬ g0.half = 1 := h1
      refine ⟨toString g0.minute ++ "分 " ++ g0.team_name ++ " " ++ g0.player_name ++
        ((if g0.is_own_goal = true then "(OG)" else "") ++
          (if g0.is_penalty = true then "(PK)" else "")), ?_⟩
      rw [formatGoal_display, halfText]
      simp [hh]
  · rw [formatGoal_display, formatGoal_display]
    simp [String.append_assoc]

/-- Witness for C4 at the completed match `wM1` and the doubly-flagged goal
`wGoal205`. -/
theorem c4_goal_lines_witness :
    List.Pairwise (fun x y : GoalReport =>
      x.half < y.half ∨ (x.half = y.half ∧ x.minute ≤ y.minute)) (formatMatch wM1).goals ∧
    (∀ gr ∈ (formatMatch wM1).goals,
      (gr.half = 1 → ∃ rest, gr.display_text = "前半" ++ rest) ∧
      (gr.half ≠ 1 → ∃ rest, gr.display_text = "後半" ++ rest)) ∧
    ("前半" : String) ≠ "後半" ∧
    (formatGoal wGoal205).display_text =
      (formatGoal { wGoal205 with is_own_goal := false, is_penalty := false }).display_text ++
        ((if wGoal205.is_own_goal = true then "(OG)" else "") ++
          (if wGoal205.is_penalty = true then "(PK)" else "")) :=
  c4_goal_lines wM1 wGoal205

/-- The goal-line ordering example of the spec: goals recorded at
(half 1, minute 10), (half 2, minute 5), (half 1, minute 40) are rendered in
the order (1,10), (1,40), (2,5). -/
theorem goal_order_example :
    ((formatMatch wM1).goals.map (fun gr => (gr.half, gr.minute))) =
      [(1, 10), (1, 40), (2, 5)] := by decide

/-- A database holding no tournament at all. -/
def emptyDB : DB :=
  { tournaments := [], venues := [], teams := [], matchRows := [],
    recipients := [], standings := [], groups := [] }

/-- C7: at the failing input (tournament id 1 on a database without that
tournament) `GET /reports/data` does return 404, but
`GET /reports/match-reports` performs no tournament-existence check: it
returns an OK empty list, and in fact it returns OK on every input. -/
theorem c7_missing_tournament_divergence :
    emptyDB.tournaments.find? (fun t => t.id == 1) = none ∧
    get_report_data emptyDB 1 0 none = Except.error 404 ∧
    get_match_reports emptyDB 1 0 none = Except.ok [] ∧
    ∀ (db : DB) (tournament_id target_date : Nat) (venue_id : Option Nat),
      get_match_reports db tournament_id target_date venue_id =
        Except.ok ((matchReportMatches db tournament_id target_date venue_id).map formatMatch) :=
  ⟨rfl, rfl, rfl, fun _ _ _ _ => rfl⟩

/-- C10: passing `venue_id = 0` is indistinguishable from omitting the
parameter, for the two data queries and for both export filenames, because
the source tests the parameter for truthiness (`if venue_id:`) and `0` is
falsy. -/
theorem c10_venue_zero_like_omitted (db : DB) (tournament_id target_date : Nat) :
    get_report_data db tournament_id target_date (some 0) =
      get_report_data db tournament_id target_date none ∧
    get_match_reports db tournament_id target_date (some 0) =
      get_match_reports db tournament_id target_date none ∧
    export_pdf_filename target_date (some 0) = export_pdf_filename target_date none ∧
    export_excel_filename target_date (some 0) = export_excel_filename target_date none :=
  ⟨rfl, rfl, rfl, rfl⟩

/-! ### Partial update of the sender settings (C8) -/

theorem applySenderUpdate_id (u : SenderSettingsUpdate) (t : Tournament) :
    (applySenderUpdate u t).id = t.id := by
  unfold applySenderUpdate
  cases u.sender_organization <;> cases u.sender_name <;> cases u.sender_contact <;> rfl

theorem applySenderUpdate_name (u : SenderSettingsUpdate) (t : Tournament) :
    (applySenderUpdate u t).name = t.name := by
  unfold applySenderUpdate
  cases u.sender_organization <;> cases u.sender_name <;> cases u.sender_contact <;> rfl

theorem applySenderUpdate_fields (u : SenderSettingsUpdate) (t : Tournament) :
    (applySenderUpdate u t).sender_organization =
        u.sender_organization.getD t.sender_organization ∧
      (applySenderUpdate u t).sender_name = u.sender_name.getD t.sender_name ∧
      (applySenderUpdate u t).sender_contact = u.sender_contact.getD t.sender_contact := by
  unfold applySenderUpdate
  cases u.sender_organization <;> cases u.sender_name <;> cases u.sender_contact <;>
    exact ⟨rfl, rfl, rfl⟩

theorem find?_updateFirst {p : α → Bool} {f : α → α}
    (hpf : ∀ x, p (f x) = p x) {l : List α} {t : α}
    (h : l.find? p = some t) :
    (updateFirst p f l).find? p = some (f t) := by
  induction l with
  | nil => simp at h
  | cons x xs ih =>
    by_cases hx : p x = true
    · rw [List.find?_cons_of_pos _ hx] at h
      injection h with h2
      rw [← h2]
      unfold updateFirst
      rw [if_pos hx]
      exact List.find?_cons_of_pos _ ((hpf x).trans hx)
    · rw [List.find?_cons_of_neg _ hx] at h
      unfold updateFirst
      rw [if_neg hx, List.find?_cons_of_neg _ hx]
      exact ih h

theorem mem_updateFirst_of_neg {p : α → Bool} {f : α → α} {x : α} {l : List α}
    (hx : x ∈ l) (hpx : p x = false) : x ∈ updateFirst p f l := by
  induction l with
  | nil => simp at hx
  | cons y ys ih =>
    unfold updateFirst
    rcases List.mem_cons.mp hx with heq | hx2
    · subst heq
      rw [if_neg (by simp [hpx])]
      exact List.mem_cons_self _ _
    · split
      · exact List.mem_cons_of_mem _ hx2
      · exact List.mem_cons_of_mem _ (ih hx2)

/-- The database state after the sender-settings PATCH: the first tournament
row matching the id is mutated in place. -/
def senderUpdatedDB (db : DB) (tournament_id : Nat)
    (settings : SenderSettingsUpdate) : DB :=
  { db with tournaments := updateFirst (fun x => x.id == tournament_id) (applySenderUpdate settings) db.tournaments }

/-- C8: the PATCH of the sender settings applies exactly the supplied fields:
a supplied field takes the supplied value, an omitted field (and every
non-sender attribute, and every other tournament row) keeps its prior
value. -/
theorem c8_sender_update_only_supplied (db : DB) (tournament_id : Nat)
    (settings : SenderSettingsUpdate) (t : Tournament)
    (h : db.tournaments.find? (fun x => x.id == tournament_id) = some t) :
    ∃ db' resp,
      update_sender_settings db tournament_id settings = Except.ok (db', resp) ∧
      db'.tournaments.find? (fun x => x.id == tournament_id) =
        some (applySenderUpdate settings t) ∧
      (applySenderUpdate settings t).sender_organization =
        settings.sender_organization.getD t.sender_organization ∧
      (applySenderUpdate settings t).sender_name =
        settings.sender_name.getD t.sender_name ∧
      (applySenderUpdate settings t).sender_contact =
        settings.sender_contact.getD t.sender_contact ∧
      (applySenderUpdate settings t).id = t.id ∧
      (applySenderUpdate settings t).name = t.name ∧
      resp = { sender_organization := (applySenderUpdate settings t).sender_organization
               sender_name := (applySenderUpdate settings t).sender_name
               sender_contact := (applySenderUpdate settings t).sender_contact } ∧
      ∀ x ∈ db.tournaments, (x.id == tournament_id) = false → x ∈ db'.tournaments := by
  have hok : update_sender_settings db tournament_id settings =
      Except.ok (senderUpdatedDB db tournament_id settings,
                 { sender_organization := (applySenderUpdate settings t).sender_organization
                   sender_name := (applySenderUpdate settings t).sender_name
                   sender_contact := (applySenderUpdate settings t).sender_contact }) := by
    unfold update_sender_settings
    rw [h]
    rfl
  refine ⟨_, _, hok, ?_, (applySenderUpdate_fields settings t).1,
    (applySenderUpdate_fields settings t).2.1, (applySenderUpdate_fields settings t).2.2,
    applySenderUpdate_id settings t, applySenderUpdate_name settings t, rfl, ?_⟩
  · have hpf : ∀ x : Tournament,
        ((applySenderUpdate settings x).id == tournament_id) = (x.id == tournament_id) :=
      fun x => by rw [applySenderUpdate_id]
    exact find?_updateFirst hpf h
  · intro x hx hpx
    show x ∈ updateFirst (fun y => y.id == tournament_id)
      (applySenderUpdate settings) db.tournaments
    exact mem_updateFirst_of_neg hx hpx

/-- A PATCH body supplying a new sender name and a null sender contact but
omitting the organization. -/
def wSettings : SenderSettingsUpdate :=
  { sender_organization := none, sender_name := some (some "大会事務局"),
    sender_contact := some none }

/-- Witness for C8 at the concrete database `wDB`. -/
theorem c8_sender_update_only_supplied_witness :
    ∃ db' resp,
      update_sender_settings wDB 1 wSettings = Except.ok (db', resp) ∧
      db'.tournaments.find? (fun x => x.id == 1) = some (applySenderUpdate wSettings wT) ∧
      (applySenderUpdate wSettings wT).sender_organization =
        wSettings.sender_organization.getD wT.sender_organization ∧
      (applySenderUpdate wSettings wT).sender_name =
        wSettings.sender_name.getD wT.sender_name ∧
      (applySenderUpdate wSettings wT).sender_contact =
        wSettings.sender_contact.getD wT.sender_contact ∧
      (applySenderUpdate wSettings wT).id = wT.id ∧
      (applySenderUpdate wSettings wT).name = wT.name ∧
      resp = { sender_organization := (applySenderUpdate wSettings wT).sender_organization
               sender_name := (applySenderUpdate wSettings wT).sender_name
               sender_contact := (applySenderUpdate wSettings wT).sender_contact } ∧
      ∀ x ∈ wDB.tournaments, (x.id == 1) = false → x ∈ db'.tournaments :=
  c8_sender_update_only_supplied wDB 1 wSettings wT rfl

/-! ### Default recipients are inserted unconditionally (C9) -/

/-- The recipient rows of one tournament. -/
def recipientsFor (db : DB) (tournament_id : Nat) : List Recipient :=
  db.recipients.filter (fun r => r.tournament_id == tournament_id)

theorem setup_default_recipients_ok {db : DB} {tournament_id : Nat} {t : Tournament}
    (h : db.tournaments.find? (fun x => x.id == tournament_id) = some t) :
    setup_default_recipients db tournament_id =
      Except.ok ({ db with recipients := db.recipients ++ defaultRecipients tournament_id },
        defaultRecipients tournament_id) := by
  unfold setup_default_recipients
  rw [h]

/-- C9: seeding the default recipients is not idempotent: each call appends
the same four rows unconditionally, so two calls grow the tournament's
recipient list by eight and leave (at least) two rows named 埼玉新聞. -/
theorem c9_setup_default_not_idempotent (db : DB) (tournament_id : Nat) (t : Tournament)
    (h : db.tournaments.find? (fun x => x.id == tournament_id) = some t) :
    ∃ db1 r1 db2 r2,
      setup_default_recipients db tournament_id = Except.ok (db1, r1) ∧
      setup_default_recipients db1 tournament_id = Except.ok (db2, r2) ∧
      r1 = defaultRecipients tournament_id ∧
      r2 = defaultRecipients tournament_id ∧
      (recipientsFor db1 tournament_id).length = (recipientsFor db tournament_id).length + 4 ∧
      (recipientsFor db2 tournament_id).length = (recipientsFor db tournament_id).length + 8 ∧
      2 ≤ ((recipientsFor db2 tournament_id).filter (fun r => r.name == "埼玉新聞")).length ∧
      db2.recipients ≠ db1.recipients := by
  have h1 := setup_default_recipients_ok h
  have h2' : ({ db with recipients := db.recipients ++ defaultRecipients tournament_id } :
      DB).tournaments.find? (fun x => x.id == tournament_id) = some t := h
  have h2 := setup_default_recipients_ok h2'
  have hD : (defaultRecipients tournament_id).filter
      (fun r => r.tournament_id == tournament_id) = defaultRecipients tournament_id := by
    simp [defaultRecipients]
  refine ⟨_, _, _, _, h1, h2, rfl, rfl, ?_, ?_, ?_, ?_⟩
  · simp [recipientsFor, List.filter_append, hD, defaultRecipients]
  · simp [recipientsFor, List.filter_append, hD, defaultRecipients]
  · simp [recipientsFor, List.filter_append, hD, defaultRecipients]
  · intro heq
    have hl := congrArg List.length heq
    simp [List.length_append, defaultRecipients] at hl

/-- Witness for C9 at the concrete database `wDB` (no recipients yet). -/
theorem c9_setup_default_not_idempotent_witness :
    ∃ db1 r1 db2 r2,
      setup_default_recipients wDB 1 = Except.ok (db1, r1) ∧
      setup_default_recipients db1 1 = Except.ok (db2, r2) ∧
      r1 = defaultRecipients 1 ∧
      r2 = defaultRecipients 1 ∧
      (recipientsFor db1 1).length = (recipientsFor wDB 1).length + 4 ∧
      (recipientsFor db2 1).length = (recipientsFor wDB 1).length + 8 ∧
      2 ≤ ((recipientsFor db2 1).filter (fun r => r.name == "埼玉新聞")).length ∧
      db2.recipients ≠ db1.recipients :=
  c9_setup_default_not_idempotent wDB 1 wT rfl

/-! ### Layout row counting and the footer (C5, C6) -/

/-- A rank-cell draw: x = 32mm is used only by the rank column of a standing
data row (group titles and the 順位 column header are at x = 30mm). -/
def isRankCell : PdfOp → Bool
  | PdfOp.text x _ _ => x == 32
  | PdfOp.line _ _ _ _ => false

/-- Number of standing data rows drawn on one page. -/
def pageRankCells (p : List PdfOp) : Nat := (p.filter isRankCell).length

/-- Number of standing data rows drawn in a whole document. -/
def docRankCells (pages : List (List PdfOp)) : Nat := (pages.map pageRankCells).sum

/-- Number of standing data rows drawn on a canvas (closed and current pages). -/
def canvasRankCells (c : Canvas) : Nat := docRankCells c.pages + pageRankCells c.current

theorem pageRankCells_append (p q : List PdfOp) :
    pageRankCells (p ++ q) = pageRankCells p + pageRankCells q := by
  unfold pageRankCells
  rw [List.filter_append, List.length_append]

theorem canvasRankCells_drawString (c : Canvas) (x y : Int) (s : String) :
    canvasRankCells (c.drawString x y s) =
      canvasRankCells c + (if x == 32 then 1 else 0) := by
  unfold canvasRankCells Canvas.drawString
  dsimp only
  rw [pageRankCells_append]
  have hone : pageRankCells [PdfOp.text x y s] = if x == 32 then 1 else 0 := by
    cases h32 : (x == 32) <;> simp [pageRankCells, List.filter, isRankCell, h32]
  rw [hone]
  omega

theorem canvasRankCells_drawLine (c : Canvas) (a b d e : Int) :
    canvasRankCells (c.drawLine a b d e) = canvasRankCells c := by
  unfold canvasRankCells Canvas.drawLine
  dsimp only
  rw [pageRankCells_append]
  have hz : pageRankCells [PdfOp.line a b d e] = 0 := rfl
  rw [hz]
  omega

theorem canvasRankCells_showPage (c : Canvas) :
    canvasRankCells c.showPage = canvasRankCells c := by
  unfold canvasRankCells Canvas.showPage docRankCells
  simp [pageRankCells]

theorem docRankCells_save (c : Canvas) :
    docRankCells c.save = canvasRankCells c := by
  unfold canvasRankCells Canvas.save docRankCells
  simp

theorem canvasRankCells_groupHeaderStep (db : DB) (s : LayoutState) (st : Standing) :
    canvasRankCells (groupHeaderStep db s st).c = canvasRankCells s.c := by
  unfold groupHeaderStep
  split
  · dsimp only
    split <;> simp [canvasRankCells_drawString, canvasRankCells_drawLine] <;>
      split <;> simp [canvasRankCells_showPage]
  · rfl

theorem canvasRankCells_standingStep (db : DB) (s : LayoutState) (st : Standing) :
    canvasRankCells (standingStep db s st).c = canvasRankCells s.c + 1 := by
  unfold standingStep
  dsimp only
  simp [canvasRankCells_drawString, canvasRankCells_groupHeaderStep]

theorem canvasRankCells_foldl (db : DB) (l : List Standing) (s : LayoutState) :
    canvasRankCells ((l.foldl (standingStep db) s).c) = canvasRankCells s.c + l.length := by
  induction l generalizing s with
  | nil => simp
  | cons a l ih =>
    rw [List.foldl_cons, ih, canvasRankCells_standingStep, List.length_cons]
    omega

theorem export_group_standings_ok {db : DB} {tournament_id : Nat} {group_id : Option String}
    {pages : List (List PdfOp)} {fname : String}
    (h : export_group_standings_pdf db tournament_id group_id = Except.ok (pages, fname)) :
    ∃ t, db.tournaments.find? (fun x => x.id == tournament_id) = some t ∧
      pages = (Canvas.drawString
        (((standingsQuery db tournament_id group_id).foldl (standingStep db)
          { c := (Canvas.drawString { pages := [], current := [] } 30 (pageHeight - 20) (t.name ++ " グループ順位表")), y := pageHeight - 20 - 15, current_group := none }).c)
        30 15 "浦和カップ運営事務局").save := by
  unfold export_group_standings_pdf at h
  split at h
  · exact absurd h (by simp)
  next t ht =>
    dsimp only at h
    split at h
    · exact absurd h (by simp)
    · simp only [Except.ok.injEq, Prod.mk.injEq] at h
      exact ⟨t, ht, h.1.symm⟩

/-- C6: no standing row is silently dropped: the number of data rows drawn
across all pages of the group-standings PDF equals the number of standings
in the queried scope. -/
theorem c6_standings_rows_all_rendered (db : DB) (tournament_id : Nat)
    (group_id : Option String) (pages : List (List PdfOp)) (fname : String)
    (h : export_group_standings_pdf db tournament_id group_id = Except.ok (pages, fname)) :
    docRankCells pages = (standingsQuery db tournament_id group_id).length := by
  obtain ⟨t, ht, hpages⟩ := export_group_standings_ok h
  subst hpages
  rw [docRankCells_save, canvasRankCells_drawString, canvasRankCells_foldl,
    canvasRankCells_drawString]
  simp [canvasRankCells, docRankCells, pageRankCells]

theorem save_drawString_footer (c : Canvas) :
    ∃ lastPage,
      (Canvas.save (c.drawString 30 15 "浦和カップ運営事務局")).getLast? = some lastPage ∧
      footerOp ∈ lastPage := by
  refine ⟨c.current ++ [footerOp], ?_, ?_⟩
  · unfold Canvas.save Canvas.drawString footerOp
    exact List.getLast?_concat _
  · simp

/-- C5 (amended): the sender-organization footer is stamped once, after the
rendering loop, so it lands at the fixed position (30mm, 15mm) on the last
page of the document (hence on every page only when the document has a
single page). -/
theorem c5_footer_on_last_page (db : DB) (tournament_id : Nat) (group_id : Option String)
    (pages : List (List PdfOp)) (fname : String)
    (h : export_group_standings_pdf db tournament_id group_id = Except.ok (pages, fname)) :
    ∃ lastPage, pages.getLast? = some lastPage ∧ footerOp ∈ lastPage := by
  obtain ⟨t, ht, hpages⟩ := export_group_standings_ok h
  subst hpages
  exact save_drawString_footer _

def c5Standing (g : String) (r : Nat) : Standing :=
  { tournament_id := 1, group_id := g, team_id := r, rank := r, played := 0, won := 0,
    drawn := 0, lost := 0, goals_for := 0, goals_against := 0, goal_difference := 0 }

/-- A database whose standings overflow one page: group A holds 32 rows, so
group B starts on a second page. -/
def c5db : DB :=
  { tournaments := [wT], venues := [], teams := [],
    matchRows := [], recipients := [],
    standings := ((List.range 32).map (fun i => c5Standing "A" (i + 1))) ++ [c5Standing "B" 1],
    groups := [] }

set_option maxRecDepth 100000 in
/-- C5 counterexample: on `c5db` the generated document has two pages and the
first page carries no footer operation at all, refuting "the footer is drawn
on every physical page". -/
theorem c5_footer_counterexample :
    (pagesOf (export_group_standings_pdf c5db 1 none)).length = 2 ∧
    footerOp ∉ (pagesOf (export_group_standings_pdf c5db 1 none)).headI := by decide

/-- A database with a single standing row (document of one page). -/
def oneStandingDB : DB :=
  { tournaments := [wT], venues := [], teams := [],
    matchRows := [], recipients := [],
    standings := [c5Standing "A" 1], groups := [] }

/-- Witness for the amended C5 at the concrete database `oneStandingDB`. -/
theorem c5_footer_on_last_page_witness :
    ∃ lastPage, (pagesOf (export_group_standings_pdf oneStandingDB 1 none)).getLast? =
        some lastPage ∧ footerOp ∈ lastPage :=
  c5_footer_on_last_page oneStandingDB 1 none
    (pagesOf (export_group_standings_pdf oneStandingDB 1 none))
    "group_standings_tournament_1.pdf" rfl

/-- Witness for C6 at the concrete database `oneStandingDB`. -/
theorem c6_standings_rows_all_rendered_witness :
    docRankCells (pagesOf (export_group_standings_pdf oneStandingDB 1 none)) =
      (standingsQuery oneStandingDB 1 none).length :=
  c6_standings_rows_all_rendered oneStandingDB 1 none
    (pagesOf (export_group_standings_pdf oneStandingDB 1 none))
    "group_standings_tournament_1.pdf" rfl

end UrawaCup
